import Mathlib

/-!
# Verification of the auto-sync scheduler of PS_Spreadsheet

Shallow embedding of `src/app/services/scheduler.py` (plus the
`interval_minutes` field validation of `AutoSyncRequest` in
`src/app/models.py` and the constants of `src/app/config.py`).

The Python module keeps four module-level globals:
`scheduler_running`, `scheduler_thread`, `last_sync_time`, `sync_status`,
together with the job registry of the `schedule` library.  We embed them as
one record `SchedState`.  The fetch (`connect_to_gsheets`) and write
(`sync_to_db`) collaborators are external: they are passed in as
`Except`-valued parameters, an `Except.error` standing for the exception the
Python call would raise (`GSheetConnectionError` / `DBConnectionError` /
any other exception — `auto_sync_job` treats all of them alike, building the
same "failed" record with `error = str(e)`).

Timestamps (`datetime.now().isoformat()`) are opaque strings supplied by
the caller: `now1` for the write made at the start of a cycle and `now2`
for the write made at its end.
-/

namespace PSSpreadsheet

/-- The `sync_status` dictionary of `scheduler.py`.  The Python dicts built
by `auto_sync_job` contain a `rows_synced` key only in the "completed"
case; we embed the key's presence as an `Option`. -/
structure SyncStatus where
  status : String
  last_run : Option String
  rows_synced : Option Nat
  error : Option String
deriving Repr, DecidableEq

/-- `sync_status = {"status": "idle", "last_run": None, "error": None}`,
the initial value of the global. -/
def initialSyncStatus : SyncStatus :=
  { status := "idle", last_run := none, rows_synced := none, error := none }

/-- A fetched spreadsheet table (`pandas` DataFrame): a list of rows.
`len(df)` is its length. -/
abbrev DataFrame := List (List String)

/-- A `threading.Thread` object as far as the scheduler observes it:
whether `is_alive()` holds. -/
structure ThreadRef where
  alive : Bool
deriving Repr, DecidableEq

/-- The module-level mutable state of `scheduler.py`:
`scheduler_running`, `scheduler_thread`, `last_sync_time`, `sync_status`,
plus the job registry of the `schedule` library (`schedule_jobs` holds the
intervals of the registered jobs; `schedule.clear()` empties it). -/
structure SchedState where
  scheduler_running : Bool
  scheduler_thread : Option ThreadRef
  last_sync_time : Option String
  sync_status : SyncStatus
  schedule_jobs : List Int
deriving Repr, DecidableEq

/-- The state at module import: `scheduler_running = False`,
`scheduler_thread = None`, `last_sync_time = None`, idle status, no jobs. -/
def initialState : SchedState :=
  { scheduler_running := false, scheduler_thread := none,
    last_sync_time := none, sync_status := initialSyncStatus,
    schedule_jobs := [] }

/-- `scheduler_thread and scheduler_thread.is_alive()`. -/
def threadAlive (st : SchedState) : Bool :=
  (st.scheduler_thread.map ThreadRef.alive).getD false

/-- The external calls a cycle makes, in order: used to state that a failed
fetch attempts no write. -/
inductive JobAction
  | fetchCall
  | writeCall
deriving Repr, DecidableEq

/-- The dict written at the start of a cycle:
`{"status": "running", "last_run": now, "error": None}` (no `rows_synced`
key). -/
def runningRecord (now : String) : SyncStatus :=
  { status := "running", last_run := some now, rows_synced := none,
    error := none }

/-- The dict written when a cycle fails (either `except` branch):
`{"status": "failed", "last_run": now, "error": str(e)}`. -/
def failedRecord (now e : String) : SyncStatus :=
  { status := "failed", last_run := some now, rows_synced := none,
    error := some e }

/-- The dict written when a cycle succeeds:
`{"status": "completed", "last_run": now, "rows_synced": len(df),
"error": None}`. -/
def completedRecord (now : String) (rows : Nat) : SyncStatus :=
  { status := "completed", last_run := some now, rows_synced := some rows,
    error := none }

/-- `auto_sync_job` of `scheduler.py`.  Returns the state after the cycle,
the successive values assigned to the shared `sync_status` during the cycle
(the "running" write, then the final write), and the external calls made.
Every exception of fetch or write is caught inside the job, so the
embedding is a total function: no failure escapes.  `last_sync_time` is
updated only on success, as in the source. -/
def auto_sync_job (fetchResult : Except String DataFrame)
    (writeResult : DataFrame → Except String Unit)
    (now1 now2 : String) (st : SchedState) :
    SchedState × List SyncStatus × List JobAction :=
  match fetchResult with
  | Except.error e =>
      ({ st with sync_status := failedRecord now2 e },
       [runningRecord now1, failedRecord now2 e],
       [JobAction.fetchCall])
  | Except.ok df =>
      match writeResult df with
      | Except.error e =>
          ({ st with sync_status := failedRecord now2 e },
           [runningRecord now1, failedRecord now2 e],
           [JobAction.fetchCall, JobAction.writeCall])
      | Except.ok _ =>
          ({ st with last_sync_time := some now2,
                     sync_status := completedRecord now2 df.length },
           [runningRecord now1, completedRecord now2 df.length],
           [JobAction.fetchCall, JobAction.writeCall])

/-- The observable actions `start_auto_sync` performs, in source order. -/
inductive StartEvent
  | clearSchedule
  | registerJob (interval : Int)
  | setRunningTrue
  | stopOldThread
  | spawnRunner
  | warmupRun
  | returnToCaller
deriving Repr, DecidableEq, BEq

/-- Outcome of `start_auto_sync`: the returned dict, or the raised
`SchedulerError`. -/
inductive StartResult
  | success (message : String) (first_sync : SyncStatus)
  | schedulerError (message : String)
deriving Repr, DecidableEq

/-- `start_auto_sync` of `scheduler.py`, with defaults already applied to
`interval_minutes` (the caller-side `None` handling).  Mirrors the source
order: guard on `scheduler_running`; `schedule.clear()` and
`schedule.every(interval).minutes.do(auto_sync_job)`;
`scheduler_running = True`; if an old thread is alive, clear the flag and
join it; create and start the new runner thread; run `auto_sync_job()`
once synchronously; return
`{"status": "success", "message": ..., "first_sync": sync_status}`.
The third component is the trace of these actions in the order the source
executes them. -/
def start_auto_sync (interval : Int)
    (fetchResult : Except String DataFrame)
    (writeResult : DataFrame → Except String Unit)
    (now1 now2 : String) (st : SchedState) :
    SchedState × StartResult × List StartEvent :=
  if st.scheduler_running then
    (st, StartResult.schedulerError "Auto-sync is already running", [])
  else
    let st2 : SchedState :=
      { st with schedule_jobs := [interval], scheduler_running := true }
    let joinEvents : List StartEvent :=
      if threadAlive st2 then [StartEvent.stopOldThread] else []
    let st3 : SchedState :=
      if threadAlive st2 then { st2 with scheduler_running := false } else st2
    let st4 : SchedState := { st3 with scheduler_thread := some ⟨true⟩ }
    let st5 := (auto_sync_job fetchResult writeResult now1 now2 st4).1
    (st5,
     StartResult.success
       ("Auto-sync started every " ++ toString interval ++ " minutes")
       st5.sync_status,
     [StartEvent.clearSchedule, StartEvent.registerJob interval,
      StartEvent.setRunningTrue]
       ++ joinEvents
       ++ [StartEvent.spawnRunner, StartEvent.warmupRun,
           StartEvent.returnToCaller])

/-- Outcome of `stop_auto_sync`: the returned dict (`status` key `success`,
`warning` or `error`). -/
inductive StopResult
  | success (message : String)
  | warning (message : String)
  | failure (message : String)
deriving Repr, DecidableEq

/-- `stop_auto_sync` of `scheduler.py`.  `joinTerminates` says whether the
runner thread terminated within the 5-second `join` timeout; the source
ignores the join outcome entirely (`Thread.join` raises nothing on
timeout) and never assigns `scheduler_thread = None`, so the thread
reference survives, merely with its observed aliveness updated. -/
def stop_auto_sync (joinTerminates : Bool) (st : SchedState) :
    SchedState × StopResult :=
  if st.scheduler_running then
    let st1 : SchedState :=
      { st with schedule_jobs := [], scheduler_running := false }
    let st2 : SchedState :=
      match st1.scheduler_thread with
      | some t =>
          if t.alive then
            { st1 with scheduler_thread := some ⟨t.alive && !joinTerminates⟩ }
          else st1
      | none => st1
    (st2, StopResult.success "Auto-sync stopped")
  else
    (st, StopResult.warning "Auto-sync is not running")

/-- `get_sync_status` of `scheduler.py`. -/
def get_sync_status (st : SchedState) : String × SyncStatus :=
  ((if st.scheduler_running then "running" else "idle"), st.sync_status)

/-- The `Idle` state of the spec's state machine: the `scheduler_running`
flag is down and no runner thread is alive (the spec's invariant
`active = true` iff a Runner is alive). -/
def IdleState (st : SchedState) : Prop :=
  st.scheduler_running = false ∧ threadAlive st = false

instance (st : SchedState) : Decidable (IdleState st) := by
  unfold IdleState
  infer_instance

/-!
## The runner thread as a step machine

`run_scheduler` of `scheduler.py` is

    while scheduler_running:
        schedule.run_pending()
        time.sleep(1)

We model one unit of runner time per step.  A program counter tracks where
the thread is: at the `while` flag check, inside a cycle started by
`run_pending` (a cycle takes `dur + 1` further steps, the last of which
performs the cycle's final `sync_status` write), in `time.sleep(1)`, or
exited.  Whether a registered job is due at a flag check, how long the
cycle it starts runs, and which statuses it writes (the "running" record
at its start and the outcome record at its end) come from the environment
as a `CycleSpec` supplied at each step. -/

/-- Environment input for one runner step: does a due job fire at the next
`run_pending`, how many further steps the started cycle takes before its
final write, and the two `sync_status` writes such a cycle performs. -/
structure CycleSpec where
  fire : Bool
  dur : Nat
  startRec : SyncStatus
  endRec : SyncStatus
deriving Repr, DecidableEq

/-- A step input under which no job is due: `run_pending` finds nothing. -/
def idleTick : CycleSpec :=
  { fire := false, dur := 0, startRec := initialSyncStatus,
    endRec := initialSyncStatus }

/-- Program counter of the runner thread. -/
inductive RunnerPC
  | checkFlag
  | runningJob (stepsLeft : Nat) (endRec : SyncStatus)
  | sleeping
  | exited
deriving Repr, DecidableEq

/-- Shared state as the runner thread sees it: the `scheduler_running`
flag, whether the `schedule` registry still holds the job
(`schedule.clear()` empties it), the runner's position, and the shared
`sync_status`. -/
structure RunnerSys where
  running : Bool
  jobsRegistered : Bool
  pc : RunnerPC
  status : SyncStatus
deriving Repr, DecidableEq

/-- One unit of runner time.  At the flag check the thread exits if the
flag is down; otherwise `run_pending` starts a due registered job (writing
its "running" record) or does nothing, and the thread will sleep.  A
cycle in progress counts down and performs its final `sync_status` write
on its last step — the flag is never consulted mid-cycle, matching the
source, where the cycle runs entirely inside `schedule.run_pending()`. -/
def run_scheduler_step (c : CycleSpec) (σ : RunnerSys) : RunnerSys :=
  match σ.pc with
  | RunnerPC.checkFlag =>
      if σ.running then
        if c.fire && σ.jobsRegistered then
          { σ with pc := RunnerPC.runningJob c.dur c.endRec,
                   status := c.startRec }
        else { σ with pc := RunnerPC.sleeping }
      else { σ with pc := RunnerPC.exited }
  | RunnerPC.runningJob (k + 1) r => { σ with pc := RunnerPC.runningJob k r }
  | RunnerPC.runningJob 0 r =>
      { σ with pc := RunnerPC.sleeping, status := r }
  | RunnerPC.sleeping => { σ with pc := RunnerPC.checkFlag }
  | RunnerPC.exited => σ

/-- Run the runner for a sequence of environment inputs. -/
def run_scheduler_run (inputs : List CycleSpec) (σ : RunnerSys) : RunnerSys :=
  match inputs with
  | [] => σ
  | c :: rest => run_scheduler_run rest (run_scheduler_step c σ)

/-- Advance the runner `n` steps with no job due (the passage of time while
the controller waits in `join`; an in-flight cycle keeps counting down). -/
def runnerSteps (n : Nat) (σ : RunnerSys) : RunnerSys :=
  run_scheduler_run (List.replicate n idleTick) σ

/-- The `join` timeout of `stop_auto_sync` (and of the old-thread join in
`start_auto_sync`): `scheduler_thread.join(timeout=5)`. -/
def JOIN_TIMEOUT : Nat := 5

/-- `stop_auto_sync` as the runner observes it: `schedule.clear()`, then
`scheduler_running = False`, then a join that waits up to `JOIN_TIMEOUT`
units of runner time before `stop_auto_sync` returns.  The returned state
is the system state at the moment Stop returns. -/
def machineStop (σ : RunnerSys) : RunnerSys :=
  runnerSteps JOIN_TIMEOUT { σ with jobsRegistered := false, running := false }

/-!
## The API-layer interval validation

`start_auto_sync` itself never checks the interval bounds; they are
enforced by the request model `AutoSyncRequest` of `src/app/models.py`
(`interval_minutes: int = Field(5, ge=1, le=1440)`), validated by the
framework before `/start-auto-sync/` invokes the scheduler.  The maximum
coincides with `MAX_SYNC_INTERVAL = 1440` of `src/app/config.py`. -/

/-- `DEFAULT_SYNC_INTERVAL = 5` of `config.py` (also the `Field` default). -/
def DEFAULT_SYNC_INTERVAL : Int := 5

/-- `MAX_SYNC_INTERVAL = 1440` of `config.py`, equal to the `le=1440`
bound of `AutoSyncRequest.interval_minutes`. -/
def MAX_SYNC_INTERVAL : Int := 1440

/-- Validation of the `interval_minutes` field of `AutoSyncRequest`:
absent means the default `5`; a supplied value must satisfy
`ge=1, le=1440`, otherwise the request is rejected. -/
def validate_interval_minutes (interval : Option Int) : Option Int :=
  match interval with
  | none => some 5
  | some i => if 1 ≤ i ∧ i ≤ 1440 then some i else none

/-- Outcome of the `/start-auto-sync/` endpoint: a request-validation
rejection (HTTP 422, the spec's `InvalidConfiguration`), or the scheduler
outcome. -/
inductive EndpointResult
  | validationError (message : String)
  | started (result : StartResult) (events : List StartEvent)
deriving Repr, DecidableEq

/-- The `/start-auto-sync/` endpoint of `src/app/api.py`: the request
model is validated first; only a request passing validation reaches
`start_auto_sync`. -/
def start_auto_sync_endpoint (interval : Option Int)
    (fetchResult : Except String DataFrame)
    (writeResult : DataFrame → Except String Unit)
    (now1 now2 : String) (st : SchedState) : SchedState × EndpointResult :=
  match validate_interval_minutes interval with
  | none =>
      (st, EndpointResult.validationError
        "interval_minutes must be between 1 and 1440")
  | some i =>
      let r := start_auto_sync i fetchResult writeResult now1 now2 st
      (r.1, EndpointResult.started r.2.1 r.2.2)

/-- rows_synced is populated only in a "completed" record. -/
def rowsOnlyWhenCompleted (s : SyncStatus) : Bool :=
  s.rows_synced.isNone || s.status == "completed"

/-- A state in which the scheduler is active and a (possibly stuck) runner
thread is alive. -/
def activeStuckState : SchedState :=
  { scheduler_running := true, scheduler_thread := some ⟨true⟩,
    last_sync_time := none, sync_status := initialSyncStatus,
    schedule_jobs := [5] }

/-- A runner-system state in which a cycle is in flight and will take more
steps than the join timeout before its final write: 7 further countdown
steps remain, and the cycle will end by writing a "failed" record. -/
def stuckCycleState : RunnerSys :=
  { running := true, jobsRegistered := true,
    pc := RunnerPC.runningJob 7 (failedRecord "t9" "fetch timed out"),
    status := initialSyncStatus }

/-- A runner-system state in which the runner is asleep between ticks, with
no cycle in flight. -/
def sleepingRunnerState : RunnerSys :=
  { running := true, jobsRegistered := true, pc := RunnerPC.sleeping,
    status := initialSyncStatus }

/-!
## Helper lemmas
-/

/-- A cycle touches only `last_sync_time` and `sync_status`: the lifecycle
fields of the global state are untouched by `auto_sync_job`. -/
theorem auto_sync_job_preserves_lifecycle (fetchResult : Except String DataFrame)
    (writeResult : DataFrame → Except String Unit)
    (now1 now2 : String) (st : SchedState) :
    (auto_sync_job fetchResult writeResult now1 now2 st).1.scheduler_running
        = st.scheduler_running
    ∧ (auto_sync_job fetchResult writeResult now1 now2 st).1.scheduler_thread
        = st.scheduler_thread
    ∧ (auto_sync_job fetchResult writeResult now1 now2 st).1.schedule_jobs
        = st.schedule_jobs := by
  unfold auto_sync_job
  cases fetchResult with
  | error e => simp
  | ok df =>
      cases h : writeResult df with
      | error e => simp [h]
      | ok u => simp [h]

/-- An exited runner is inert: a step changes nothing. -/
theorem run_scheduler_step_exited (c : CycleSpec) (σ : RunnerSys)
    (h : σ.pc = RunnerPC.exited) : run_scheduler_step c σ = σ := by
  unfold run_scheduler_step
  rw [h]

/-- An exited runner stays inert under any input sequence. -/
theorem run_scheduler_run_exited (inputs : List CycleSpec) (σ : RunnerSys)
    (h : σ.pc = RunnerPC.exited) : run_scheduler_run inputs σ = σ := by
  induction inputs with
  | nil => rfl
  | cons c rest ih =>
      unfold run_scheduler_run
      rw [run_scheduler_step_exited c σ h, ih]

/-!
## The claims
-/

/-- Claim C1: in every state in which a job is active
(`scheduler_running = True`), `start_auto_sync` raises
`SchedulerError("Auto-sync is already running")` and changes nothing: the
returned state is the input state (same flag, same recorded thread, same
`sync_status`) and no action is performed, in particular no runner is
spawned. -/
theorem C1_start_conflict_no_state_change (interval : Int)
    (fetchResult : Except String DataFrame)
    (writeResult : DataFrame → Except String Unit)
    (now1 now2 : String) (st : SchedState)
    (h : st.scheduler_running = true) :
    start_auto_sync interval fetchResult writeResult now1 now2 st
      = (st, StartResult.schedulerError "Auto-sync is already running", []) := by
  unfold start_auto_sync
  rw [h]
  simp

/-- Witness for C1 at a concrete active state. -/
theorem C1_start_conflict_no_state_change_witness :
    start_auto_sync 5 (Except.ok [["a"]]) (fun _ => Except.ok ()) "t1" "t2"
        activeStuckState
      = (activeStuckState,
         StartResult.schedulerError "Auto-sync is already running", []) :=
  C1_start_conflict_no_state_change 5 (Except.ok [["a"]])
    (fun _ => Except.ok ()) "t1" "t2" activeStuckState rfl

/-- Claim C9: `stop_auto_sync` called while the scheduler is idle
(`scheduler_running = False`) returns the non-error warning
`{"status": "warning", "message": "Auto-sync is not running"}` and the
state is unchanged: an idempotent no-op. -/
theorem C9_stop_idle_noop (joinTerminates : Bool) (st : SchedState)
    (h : st.scheduler_running = false) :
    stop_auto_sync joinTerminates st
      = (st, StopResult.warning "Auto-sync is not running") := by
  unfold stop_auto_sync
  rw [h]
  simp

/-- Witness for C9 at the initial state. -/
theorem C9_stop_idle_noop_witness :
    stop_auto_sync true initialState
      = (initialState, StopResult.warning "Auto-sync is not running") :=
  C9_stop_idle_noop true initialState rfl

/-- Claim C8: a cycle whose fetch and write both succeed leaves
`sync_status` with `status = "completed"`, `rows_synced = len(df)`,
`last_run = now` and a cleared `error`, and updates `last_sync_time`. -/
theorem C8_success_cycle_completed (df : DataFrame)
    (writeResult : DataFrame → Except String Unit)
    (now1 now2 : String) (st : SchedState)
    (h : writeResult df = Except.ok ()) :
    (auto_sync_job (Except.ok df) writeResult now1 now2 st).1.sync_status
        = { status := "completed", last_run := some now2,
            rows_synced := some df.length, error := none }
    ∧ (auto_sync_job (Except.ok df) writeResult now1 now2 st).1.last_sync_time
        = some now2 := by
  simp [auto_sync_job, h, completedRecord]

/-- Witness for C8 on a two-row table. -/
theorem C8_success_cycle_completed_witness :
    (auto_sync_job (Except.ok [["a"], ["b"]]) (fun _ => Except.ok ())
        "t1" "t2" initialState).1.sync_status
      = { status := "completed", last_run := some "t2",
          rows_synced := some 2, error := none }
    ∧ (auto_sync_job (Except.ok [["a"], ["b"]]) (fun _ => Except.ok ())
        "t1" "t2" initialState).1.last_sync_time = some "t2" :=
  C8_success_cycle_completed [["a"], ["b"]] (fun _ => Except.ok ())
    "t1" "t2" initialState rfl

/-- Claim C10: every `sync_status` value written during a cycle carries a
`rows_synced` entry only if it is a "completed" record; the first write of
a cycle is the "running" record, which has no `rows_synced`; and the
state after the cycle holds exactly the last written record (each write
replaces the whole record, so a previous cycle's `rows_synced` is never
retained once a new cycle starts or fails). -/
theorem C10_rows_synced_only_completed (fetchResult : Except String DataFrame)
    (writeResult : DataFrame → Except String Unit)
    (now1 now2 : String) (st : SchedState) :
    (auto_sync_job fetchResult writeResult now1 now2 st).2.1.all
        rowsOnlyWhenCompleted = true
    ∧ (auto_sync_job fetchResult writeResult now1 now2 st).2.1.head?
        = some (runningRecord now1)
    ∧ (runningRecord now1).rows_synced = none
    ∧ (auto_sync_job fetchResult writeResult now1 now2 st).2.1.getLast?
        = some (auto_sync_job fetchResult writeResult now1 now2 st).1.sync_status := by
  unfold auto_sync_job
  cases fetchResult with
  | error e =>
      simp [rowsOnlyWhenCompleted, runningRecord, failedRecord]
  | ok df =>
      cases h : writeResult df with
      | error e =>
          simp [h, rowsOnlyWhenCompleted, runningRecord, failedRecord]
      | ok u =>
          simp [h, rowsOnlyWhenCompleted, runningRecord, completedRecord]

/-- Claim C5: no exception escapes a cycle. A failed fetch yields a
"failed" record holding the fetch error and no write call is made; a
failed write yields a "failed" record holding the write error; and a
runner that has just finished a cycle (whatever that cycle wrote) is
still in its loop: at the next due tick it starts the next cycle. -/
theorem C5_failure_isolation :
    (∀ (e : String) (writeResult : DataFrame → Except String Unit)
        (now1 now2 : String) (st : SchedState),
        (auto_sync_job (Except.error e) writeResult now1 now2 st).1.sync_status
            = { status := "failed", last_run := some now2,
                rows_synced := none, error := some e }
        ∧ JobAction.writeCall ∉
            (auto_sync_job (Except.error e) writeResult now1 now2 st).2.2)
    ∧ (∀ (df : DataFrame) (e : String) (now1 now2 : String) (st : SchedState),
        (auto_sync_job (Except.ok df) (fun _ => Except.error e)
            now1 now2 st).1.sync_status
          = { status := "failed", last_run := some now2,
              rows_synced := none, error := some e })
    ∧ (∀ (σ : RunnerSys) (r s1 res : SyncStatus) (c1 c2 : CycleSpec) (d : Nat),
        σ.pc = RunnerPC.runningJob 0 r → σ.running = true →
        σ.jobsRegistered = true →
        (run_scheduler_step
            { fire := true, dur := d, startRec := s1, endRec := res }
            (run_scheduler_step c2 (run_scheduler_step c1 σ))).pc
          = RunnerPC.runningJob d res) := by
  refine ⟨?_, ?_, ?_⟩
  · intro e writeResult now1 now2 st
    unfold auto_sync_job
    exact ⟨rfl, by simp⟩
  · intro df e now1 now2 st
    unfold auto_sync_job
    rfl
  · intro σ r s1 res c1 c2 d hpc hrun hjobs
    obtain ⟨running, jobs, pc, status⟩ := σ
    simp only at hpc hrun hjobs
    subst hpc hrun hjobs
    simp [run_scheduler_step]

/-- Witness for C5: a concrete failed fetch, and a concrete runner that
finished a failed cycle and starts the next cycle at the next tick. -/
theorem C5_failure_isolation_witness :
    ((auto_sync_job (Except.error "boom") (fun _ => Except.ok ())
        "t1" "t2" initialState).1.sync_status
      = { status := "failed", last_run := some "t2",
          rows_synced := none, error := some "boom" }
    ∧ JobAction.writeCall ∉
        (auto_sync_job (Except.error "boom") (fun _ => Except.ok ())
          "t1" "t2" initialState).2.2)
    ∧ (run_scheduler_step
          { fire := true, dur := 4, startRec := initialSyncStatus,
            endRec := initialSyncStatus }
          (run_scheduler_step idleTick (run_scheduler_step idleTick
            { running := true, jobsRegistered := true,
              pc := RunnerPC.runningJob 0 (failedRecord "t2" "boom"),
              status := runningRecord "t1" }))).pc
        = RunnerPC.runningJob 4 initialSyncStatus :=
  ⟨C5_failure_isolation.1 "boom" (fun _ => Except.ok ()) "t1" "t2"
      initialState,
   C5_failure_isolation.2.2
      { running := true, jobsRegistered := true,
        pc := RunnerPC.runningJob 0 (failedRecord "t2" "boom"),
        status := runningRecord "t1" }
      (failedRecord "t2" "boom") initialSyncStatus initialSyncStatus
      idleTick idleTick 4 rfl rfl rfl⟩

/-- Claim C3: a Start made in the `Idle` state with a valid interval
returns the success dict whose `first_sync` field is the warm-up cycle's
resulting `sync_status` snapshot — whatever the warm-up's fetch and write
did, since they are universally quantified here — and in every case the
recurring schedule is armed: the job is registered and
`scheduler_running` is left `True`. -/
theorem C3_start_idle_returns_warmup_snapshot (interval : Int)
    (fetchResult : Except String DataFrame)
    (writeResult : DataFrame → Except String Unit)
    (now1 now2 : String) (st : SchedState)
    (hIdle : IdleState st)
    (_hValid : 1 ≤ interval ∧ interval ≤ MAX_SYNC_INTERVAL) :
    (start_auto_sync interval fetchResult writeResult now1 now2 st).2.1
        = StartResult.success
            ("Auto-sync started every " ++ toString interval ++ " minutes")
            ((start_auto_sync interval fetchResult writeResult now1 now2
                st).1.sync_status)
    ∧ (start_auto_sync interval fetchResult writeResult now1 now2
        st).1.scheduler_running = true
    ∧ (start_auto_sync interval fetchResult writeResult now1 now2
        st).1.schedule_jobs = [interval] := by
  obtain ⟨h1, h2⟩ := hIdle
  simp only [threadAlive] at h2
  cases fetchResult with
  | error e =>
      simp [start_auto_sync, auto_sync_job, threadAlive, h1, h2]
  | ok df =>
      cases hw : writeResult df with
      | error e2 =>
          simp [start_auto_sync, auto_sync_job, threadAlive, h1, h2, hw]
      | ok u =>
          simp [start_auto_sync, auto_sync_job, threadAlive, h1, h2, hw]

/-- Witness for C3: a start from the initial state whose warm-up fetch
fails, yet Start succeeds and the schedule is armed. -/
theorem C3_start_idle_returns_warmup_snapshot_witness :
    (start_auto_sync 5 (Except.error "boom") (fun _ => Except.ok ())
        "t1" "t2" initialState).2.1
      = StartResult.success "Auto-sync started every 5 minutes"
          ((start_auto_sync 5 (Except.error "boom") (fun _ => Except.ok ())
              "t1" "t2" initialState).1.sync_status)
    ∧ (start_auto_sync 5 (Except.error "boom") (fun _ => Except.ok ())
        "t1" "t2" initialState).1.scheduler_running = true
    ∧ (start_auto_sync 5 (Except.error "boom") (fun _ => Except.ok ())
        "t1" "t2" initialState).1.schedule_jobs = [5] :=
  C3_start_idle_returns_warmup_snapshot 5 (Except.error "boom")
    (fun _ => Except.ok ()) "t1" "t2" initialState ⟨rfl, rfl⟩
    (by constructor <;> decide)

/-- Claim C4: a `/start-auto-sync/` request whose `interval_minutes` lies
outside `[1, MAX_SYNC_INTERVAL]` is rejected by the request-model
validation before the scheduler is invoked: the endpoint returns a
validation error and the state is unchanged, hence still `Idle`. -/
theorem C4_invalid_interval_rejected (i : Int)
    (fetchResult : Except String DataFrame)
    (writeResult : DataFrame → Except String Unit)
    (now1 now2 : String) (st : SchedState)
    (hIdle : IdleState st) (hbad : i < 1 ∨ MAX_SYNC_INTERVAL < i) :
    start_auto_sync_endpoint (some i) fetchResult writeResult now1 now2 st
        = (st, EndpointResult.validationError
            "interval_minutes must be between 1 and 1440")
    ∧ IdleState
        (start_auto_sync_endpoint (some i) fetchResult writeResult
          now1 now2 st).1 := by
  have hnot : ¬ (1 ≤ i ∧ i ≤ 1440) := by
    unfold MAX_SYNC_INTERVAL at hbad
    omega
  constructor
  · simp [start_auto_sync_endpoint, validate_interval_minutes, hnot]
  · simp only [start_auto_sync_endpoint, validate_interval_minutes, hnot,
      if_false]
    exact hIdle

/-- Witness for C4 with `interval_minutes = 0` from the initial state. -/
theorem C4_invalid_interval_rejected_witness :
    start_auto_sync_endpoint (some 0) (Except.ok [["a"]])
        (fun _ => Except.ok ()) "t1" "t2" initialState
      = (initialState, EndpointResult.validationError
          "interval_minutes must be between 1 and 1440")
    ∧ IdleState
        (start_auto_sync_endpoint (some 0) (Except.ok [["a"]])
          (fun _ => Except.ok ()) "t1" "t2" initialState).1 :=
  C4_invalid_interval_rejected 0 (Except.ok [["a"]]) (fun _ => Except.ok ())
    "t1" "t2" initialState ⟨rfl, rfl⟩ (Or.inl (by decide))

/-- Counterexample to claim C6 as stated: in the action trace of a
successful Start from the initial state, the runner thread is spawned
strictly before the warm-up cycle runs — the source calls
`scheduler_thread.start()` and only then `auto_sync_job()` — so the
warm-up is not executed "before the Runner is spawned". -/
theorem C6_counterexample :
    initialState.scheduler_running = false
    ∧ List.indexOf StartEvent.spawnRunner
        ((start_auto_sync 5 (Except.ok [["a"]]) (fun _ => Except.ok ())
            "t1" "t2" initialState).2.2)
      < List.indexOf StartEvent.warmupRun
        ((start_auto_sync 5 (Except.ok [["a"]]) (fun _ => Except.ok ())
            "t1" "t2" initialState).2.2) := by
  exact ⟨rfl, by decide⟩

/-- Claim C6 as amended: for every Start made in the `Idle` state, the
action trace is exactly clear-schedule, register-job, set-running-flag,
spawn-runner, warm-up-run, return — so the warm-up cycle is executed
synchronously on the caller (Start returns only after it completes) and
the runner never executes it, but the runner thread is spawned before
the warm-up runs, not after. -/
theorem C6_warmup_synchronous_after_spawn (interval : Int)
    (fetchResult : Except String DataFrame)
    (writeResult : DataFrame → Except String Unit)
    (now1 now2 : String) (st : SchedState)
    (hIdle : IdleState st) :
    (start_auto_sync interval fetchResult writeResult now1 now2 st).2.2
      = [StartEvent.clearSchedule, StartEvent.registerJob interval,
         StartEvent.setRunningTrue, StartEvent.spawnRunner,
         StartEvent.warmupRun, StartEvent.returnToCaller] := by
  obtain ⟨h1, h2⟩ := hIdle
  simp only [threadAlive] at h2
  simp [start_auto_sync, threadAlive, h1, h2]

/-- Witness for C6's amended statement at the initial state. -/
theorem C6_warmup_synchronous_after_spawn_witness :
    (start_auto_sync 5 (Except.ok [["a"]]) (fun _ => Except.ok ())
        "t1" "t2" initialState).2.2
      = [StartEvent.clearSchedule, StartEvent.registerJob 5,
         StartEvent.setRunningTrue, StartEvent.spawnRunner,
         StartEvent.warmupRun, StartEvent.returnToCaller] :=
  C6_warmup_synchronous_after_spawn 5 (Except.ok [["a"]])
    (fun _ => Except.ok ()) "t1" "t2" initialState ⟨rfl, rfl⟩

/-- Counterexample to claim C7 as stated: stopping from an active state
whose runner does not terminate within the 5-second join bound
(`joinTerminates = false`) still returns the success dict — no
`ShutdownTimeout` failure is surfaced, since `Thread.join(timeout=5)`
raises nothing on timeout — and the recorded thread reference is not
cleared: it still holds the (still alive) runner. -/
theorem C7_counterexample :
    activeStuckState.scheduler_running = true
    ∧ (stop_auto_sync false activeStuckState).2
        = StopResult.success "Auto-sync stopped"
    ∧ (stop_auto_sync false activeStuckState).1.scheduler_thread
        = some ⟨true⟩ := by
  exact ⟨rfl, rfl, rfl⟩

/-- Claim C7 as amended: for every Stop made while active, the schedule is
cleared and the running flag is dropped (the state becomes `Idle`), and —
whether or not the runner terminates within the join bound — Stop returns
the success dict; no timeout failure is ever surfaced, and the recorded
thread reference is retained rather than cleared. -/
theorem C7_stop_active_always_success (joinTerminates : Bool)
    (st : SchedState) (h : st.scheduler_running = true) :
    (stop_auto_sync joinTerminates st).2
        = StopResult.success "Auto-sync stopped"
    ∧ (stop_auto_sync joinTerminates st).1.scheduler_running = false
    ∧ (stop_auto_sync joinTerminates st).1.schedule_jobs = []
    ∧ (stop_auto_sync joinTerminates st).1.scheduler_thread.isSome
        = st.scheduler_thread.isSome := by
  unfold stop_auto_sync
  rw [h]
  cases hth : st.scheduler_thread with
  | none => simp [hth]
  | some t =>
      by_cases ha : t.alive = true
      · simp [hth, ha]
      · simp [hth, ha]

/-- Witness for C7's amended statement: a stop from an active state whose
runner outlives the join bound. -/
theorem C7_stop_active_always_success_witness :
    (stop_auto_sync false activeStuckState).2
        = StopResult.success "Auto-sync stopped"
    ∧ (stop_auto_sync false activeStuckState).1.scheduler_running = false
    ∧ (stop_auto_sync false activeStuckState).1.schedule_jobs = []
    ∧ (stop_auto_sync false activeStuckState).1.scheduler_thread.isSome
        = activeStuckState.scheduler_thread.isSome :=
  C7_stop_active_always_success false activeStuckState rfl

/-- Counterexample to claim C2 as stated: from an active state whose
in-flight cycle still has 7 countdown steps when Stop is called, the
bounded 5-step join of `machineStop` returns with the cycle unfinished;
three runner steps later the cycle performs its final write, so the
snapshot taken when Stop returned differs from a later snapshot — a
mutation of `sync_status` by the stopped runner after Stop has
returned. -/
theorem C2_counterexample :
    stuckCycleState.running = true
    ∧ (machineStop stuckCycleState).status = initialSyncStatus
    ∧ (runnerSteps 3 (machineStop stuckCycleState)).status
        = failedRecord "t9" "fetch timed out"
    ∧ failedRecord "t9" "fetch timed out" ≠ initialSyncStatus := by
  exact ⟨rfl, rfl, rfl, by decide⟩

/-- Claim C2 as amended: post-stop silence holds whenever the runner has
actually exited by the time the bounded join of Stop completes: from any
active state, if `machineStop` ends with the runner exited, then under
every subsequent environment the shared `sync_status` never changes
again. -/
theorem C2_post_stop_silence_if_joined (σ : RunnerSys)
    (_h : σ.running = true)
    (hstopped : (machineStop σ).pc = RunnerPC.exited) :
    ∀ inputs : List CycleSpec,
      (run_scheduler_run inputs (machineStop σ)).status
        = (machineStop σ).status := by
  intro inputs
  rw [run_scheduler_run_exited inputs _ hstopped]

/-- Witness for C2's amended statement: a runner asleep between ticks
observes the cleared flag within the join bound and exits; a later tick
that would fire a job changes nothing. -/
theorem C2_post_stop_silence_if_joined_witness :
    (run_scheduler_run
        [{ fire := true, dur := 2, startRec := initialSyncStatus,
           endRec := initialSyncStatus }]
        (machineStop sleepingRunnerState)).status
      = (machineStop sleepingRunnerState).status :=
  C2_post_stop_silence_if_joined sleepingRunnerState rfl (by decide)
    [{ fire := true, dur := 2, startRec := initialSyncStatus,
       endRec := initialSyncStatus }]

end PSSpreadsheet
